import Mathlib

/-!
Shallow embedding of src/pcrextend/pcrextend.c (systemd TPM2 PCR extension
tool). Byte strings are modelled as lists of naturals, external collaborators
(TPM transport, blkid probing, path resolution) as explicit environment
records, and the mutable process-wide configuration (the bank list) as state
threaded through each call. Errors are the positive errno values the C code
returns negated.
-/

namespace Pcrextend

/-- Byte strings, one natural per byte. -/
abbrev Bytes := List Nat

/-- ASCII bytes of a Lean string literal, for constants such as the
file-system identity word components of the source. -/
def strBytes (s : String) : Bytes := s.data.map Char.toNat

/-- errno constant ENOENT, returned by extend_now when no PCR bank is usable. -/
def ENOENT : Nat := 2

/-- errno constant EIO. -/
def EIO : Nat := 5

/-- errno constant ENOTDIR, returned when the path is not a mount point. -/
def ENOTDIR : Nat := 20

/-- errno constant EINVAL, used for argument validation failures. -/
def EINVAL : Nat := 22

/-- errno constant ENOPKG, returned when blkid probing finds no recognizable
or an ambiguous super-block. -/
def ENOPKG : Nat := 65

/-- EXTENSION_STRING_SAFE_LIMIT from pcrextend.c line 39: logging payload cap. -/
def EXTENSION_STRING_SAFE_LIMIT : Nat := 1024

/-- TPM2_PCR_KERNEL_BOOT, PCR 11, the default register for plain-word mode. -/
def TPM2_PCR_KERNEL_BOOT : Nat := 11

/-- TPM2_PCR_SYSTEM_IDENTITY, PCR 15, the default register for file-system and
machine-id modes. -/
def TPM2_PCR_SYSTEM_IDENTITY : Nat := 15

/-- TPM2_PCRS_MAX: PCR indices run from 0 to 23, so 24 registers in total. -/
def TPM2_PCRS_MAX : Nat := 24

/-- Lowercase hexadecimal digit byte for a nibble, as the hexchar helper of
the escaping routines produces. -/
def hexchar (n : Nat) : Nat := if n < 10 then 48 + n else 97 + (n - 10)

/-- Modelled from the spec: escaping of one byte by xescape (escape.c is not
under src/). The spec requires that the separator character appearing inside
any raw field value is itself escaped before joining into a printable,
self-inverse form, illustrated as backslash-x hex pairs. A byte that is in
the bad set, is the backslash (92), or is not printable ASCII becomes the
four bytes backslash, x, and two lowercase hex digits; every other byte is
kept as is. -/
def xescape_char (bad : List Nat) (b : Nat) : Bytes :=
  if b < 32 ∨ 127 ≤ b ∨ b = 92 ∨ b ∈ bad then
    [92, 120, hexchar (b / 16), hexchar (b % 16)]
  else [b]

/-- Modelled from the spec: xescape(s, bad) escapes every byte of s with
xescape_char, used in pcrextend.c with bad = the separator ":" (byte 58) to
avoid ambiguity around the separator. -/
def xescape (s : Bytes) (bad : List Nat) : Bytes := s.flatMap (xescape_char bad)

/-- Modelled from the spec: cescape of one byte (escape.c is not under src/);
the spec only requires a printable escaped form for logging. Printable ASCII
other than the backslash is kept; everything else becomes a backslash-x hex
pair. -/
def cescape_char (b : Nat) : Bytes :=
  if 32 ≤ b ∧ b < 127 ∧ b ≠ 92 then [b]
  else [92, 120, hexchar (b / 16), hexchar (b % 16)]

/-- Modelled from the spec: cescape_length(data, n) escapes the first n bytes
of data into the printable logging form. -/
def cescape_length (data : Bytes) (n : Nat) : Bytes :=
  (data.take n).flatMap cescape_char

/-- strv_join(l, sep): join the list of byte strings l with separator sep, as
in pcrextend.c get_file_system_word line 262. -/
def strv_join (l : List Bytes) (sep : Bytes) : Bytes := sep.intercalate l

/-- Tpm2UserspaceEventType values passed to extend_now: PHASE, FILESYSTEM,
MACHINE_ID, or the invalid placeholder used by the Varlink method. -/
inductive Tpm2UserspaceEventType
  | phase
  | filesystem
  | machineId
  | invalid
deriving DecidableEq, Repr

/-- Environment of the TPM collaborator for one process: whether
tpm2_context_new succeeds, the good-bank query answer per PCR index
(tpm2_get_good_pcr_banks_strv), and whether tpm2_extend_bytes succeeds,
with the errno each failing call reports. -/
structure Tpm2Env where
  ctx_ok : Bool
  ctx_err : Nat
  good_pcr_banks : Nat → List String
  banks_query_ok : Bool
  banks_query_err : Nat
  extend_ok : Bool
  extend_err : Nat

/-- determine_banks (pcrextend.c lines 186-201): when the process-wide bank
list arg_banks is non-empty it is returned unchanged and the TPM is not
queried; otherwise the TPM is queried for the banks with a valid digest in
the target PCR and the result replaces arg_banks. The second component
records which PCR indices were queried. -/
def determine_banks (env : Tpm2Env) (arg_banks : List String) (target_pcr_nr : Nat) :
    Except Nat (List String) × List Nat :=
  if arg_banks ≠ [] then (Except.ok arg_banks, [])
  else if env.banks_query_ok then (Except.ok (env.good_pcr_banks target_pcr_nr), [target_pcr_nr])
  else (Except.error env.banks_query_err, [target_pcr_nr])

/-- Record of one tpm2_extend_bytes invocation: the bank list, the PCR index,
the raw payload bytes, the event tag, and the escaped description string
passed alongside for the event log. -/
structure ExtendCall where
  banks : List String
  pcr : Nat
  data : Bytes
  event : Tpm2UserspaceEventType
  description : Bytes
deriving DecidableEq, Repr

/-- Outcome of one extend_now call: its result, the process-wide bank list
after the call (arg_banks may have been replaced), the bank queries made, the
tpm2_extend_bytes calls made, and the safe logging string when it was built. -/
structure ExtendNowResult where
  result : Except Nat Unit
  banks : List String
  queries : List Nat
  calls : List ExtendCall
  logged : Option Bytes
deriving Repr

/-- Safe logging form of a payload (extend_now lines 289-301): the printable
escaping of the whole payload when it does not exceed
EXTENSION_STRING_SAFE_LIMIT, and otherwise the escaping of only its first
EXTENSION_STRING_SAFE_LIMIT bytes followed by the truncation marker. -/
def extension_safe_string (data : Bytes) : Bytes :=
  if EXTENSION_STRING_SAFE_LIMIT < data.length then
    cescape_length data EXTENSION_STRING_SAFE_LIMIT ++ strBytes "..."
  else
    cescape_length data data.length

/-- extend_now (pcrextend.c lines 270-317): open a TPM context, resolve the
bank set via determine_banks, fail with ENOENT when it is still empty, build
the safe logging string, and invoke tpm2_extend_bytes with the raw payload on
every resolved bank. -/
def extend_now (env : Tpm2Env) (arg_banks : List String) (pcr : Nat) (data : Bytes)
    (event : Tpm2UserspaceEventType) : ExtendNowResult :=
  if env.ctx_ok = false then ⟨Except.error env.ctx_err, arg_banks, [], [], none⟩
  else
    match determine_banks env arg_banks pcr with
    | (Except.error e, qs) => ⟨Except.error e, arg_banks, qs, [], none⟩
    | (Except.ok banks2, qs) =>
      if banks2 = [] then ⟨Except.error ENOENT, banks2, qs, [], none⟩
      else
        let safe : Bytes := extension_safe_string data
        let call : ExtendCall := ⟨banks2, pcr, data, event, safe⟩
        if env.extend_ok then ⟨Except.ok (), banks2, qs, [call], some safe⟩
        else ⟨Except.error env.extend_err, banks2, qs, [call], some safe⟩

/-- Values the blkid probe can report for the six looked-up fields
(get_file_system_word lines 245-258); an absent value reads back as NULL and
is turned into the empty string by strempty, so absence is the empty list. -/
structure BlkidValues where
  TYPE : Bytes
  UUID : Bytes
  LABEL : Bytes
  PART_ENTRY_UUID : Bytes
  PART_ENTRY_TYPE : Bytes
  PART_ENTRY_NAME : Bytes
deriving DecidableEq, Repr

/-- Outcome of blkid_do_safeprobe on the backing device (get_file_system_word
lines 232-239): an I/O style error with its errno, an ambiguous probe, no
recognizable super-block, or a successful probe with its values. -/
inductive SafeprobeOutcome
  | probeError (e : Nat)
  | ambiguous
  | notFound
  | found (v : BlkidValues)
deriving Repr

/-- Environment of one resolved backing block device: whether sd_device_open
succeeds and what the blkid probe reports. -/
structure DeviceEnv where
  open_result : Except Nat Unit
  probe : SafeprobeOutcome
deriving Repr

/-- get_file_system_word (pcrextend.c lines 203-268): open the backing
device, probe its super-block, report ENOPKG on an ambiguous or unrecognized
probe, and on success join the prefix with the six field values, each escaped
for the separator byte 58, into one colon-separated word of 7 components. -/
def get_file_system_word (d : DeviceEnv) (pfx : Bytes) : Except Nat Bytes :=
  match d.open_result with
  | Except.error e => Except.error e
  | Except.ok _ =>
    match d.probe with
    | SafeprobeOutcome.probeError e => Except.error e
    | SafeprobeOutcome.ambiguous => Except.error ENOPKG
    | SafeprobeOutcome.notFound => Except.error ENOPKG
    | SafeprobeOutcome.found v =>
      Except.ok (strv_join [pfx,
        xescape v.TYPE [58], xescape v.UUID [58], xescape v.LABEL [58],
        xescape v.PART_ENTRY_UUID [58], xescape v.PART_ENTRY_TYPE [58],
        xescape v.PART_ENTRY_NAME [58]] [58])

/-- Parsed process configuration after parse_argv: the graceful flag, the
explicitly configured bank list, the file-system path option, the machine-id
flag, the explicitly selected PCR index (none when not given on the command
line), and the positional arguments left after option parsing. -/
structure Config where
  graceful : Bool
  banks : List String
  file_system : Option Bytes
  machine_id : Bool
  pcr_index : Option Nat
  args : List Bytes

/-- Environment of one non-Varlink run: the TPM collaborator, whether
tpm2_support reports full support, what efi_measured_uki reports (error,
false for a stub that did not measure the kernel image, true for one that
did), the chase_and_open result for the file-system path, the
fd_is_mount_point result, the backing block device when
block_device_new_from_fd succeeds, and the machine ID as its canonical
string bytes. -/
structure RunEnv where
  tpm2 : Tpm2Env
  tpm2_support_full : Bool
  efi_measured_uki : Except Nat Bool
  chase : Except Nat Bytes
  mount_point : Except Nat Bool
  backing_device : Option DeviceEnv
  machine_id_val : Except Nat Bytes

/-- PCR index the run extends: the explicitly selected one, or the default
parse_argv applies in non-Varlink mode (lines 178-181): PCR 15 for
file-system or machine-id mode, PCR 11 for plain-word mode. -/
def effective_pcr_index (c : Config) : Nat :=
  match c.pcr_index with
  | some i => i
  | none =>
    if c.file_system.isSome || c.machine_id then TPM2_PCR_SYSTEM_IDENTITY
    else TPM2_PCR_KERNEL_BOOT

/-- Word construction of run (pcrextend.c lines 415-487): in file-system mode
require no positional argument, resolve and check the mount point, build the
prefix from the escaped normalized path, and either fall back to the generic
word with six empty trailing fields when the backing device is unavailable
or build the full identity word; in machine-id mode require no positional
argument and prefix the canonical ID; in plain-word mode require exactly one
positional argument and refuse the empty word. -/
def run_build_word (c : Config) (env : RunEnv) :
    Except Nat (Bytes × Tpm2UserspaceEventType) :=
  if c.file_system.isSome then
    if c.args ≠ [] then Except.error EINVAL
    else
      match env.chase with
      | Except.error e => Except.error e
      | Except.ok normalized =>
        match env.mount_point with
        | Except.error e => Except.error e
        | Except.ok false => Except.error ENOTDIR
        | Except.ok true =>
          let normalized_escaped := xescape normalized [58]
          let pfx := strBytes "file-system:" ++ normalized_escaped
          match env.backing_device with
          | none => Except.ok (pfx ++ strBytes "::::::", Tpm2UserspaceEventType.filesystem)
          | some d =>
            match get_file_system_word d pfx with
            | Except.error e => Except.error e
            | Except.ok w => Except.ok (w, Tpm2UserspaceEventType.filesystem)
  else if c.machine_id then
    if c.args ≠ [] then Except.error EINVAL
    else
      match env.machine_id_val with
      | Except.error e => Except.error e
      | Except.ok mid =>
        Except.ok (strBytes "machine-id:" ++ mid, Tpm2UserspaceEventType.machineId)
  else
    match c.args with
    | [w] =>
      if w = [] then Except.error EINVAL
      else Except.ok (w, Tpm2UserspaceEventType.phase)
    | _ => Except.error EINVAL

/-- Outcome of one non-Varlink run: the process result (ok corresponds to
EXIT_SUCCESS, an error to a non-zero exit), the bank list state after the
run, the bank queries made, and the tpm2_extend_bytes calls made. -/
structure RunResult where
  result : Except Nat Unit
  banks : List String
  queries : List Nat
  calls : List ExtendCall
deriving Repr

/-- Straight-line tail of run shared by all non-Varlink modes (pcrextend.c
lines 489-507): the graceful-degradation gate (exit successfully when the
graceful flag is set and TPM support is not full), then the stub-measurement
gate (propagate an efi_measured_uki error, and exit successfully without
measuring when the stub did not measure the kernel image), and finally the
extend_now call on the built word for the effective PCR index. -/
def run_measure (c : Config) (env : RunEnv) (word : Bytes)
    (event : Tpm2UserspaceEventType) : RunResult :=
  if c.graceful ∧ env.tpm2_support_full = false then ⟨Except.ok (), c.banks, [], []⟩
  else
    match env.efi_measured_uki with
    | Except.error e => ⟨Except.error e, c.banks, [], []⟩
    | Except.ok false => ⟨Except.ok (), c.banks, [], []⟩
    | Except.ok true =>
      let r := extend_now env.tpm2 c.banks (effective_pcr_index c) word event
      ⟨r.result, r.banks, r.queries, r.calls⟩

/-- run (pcrextend.c lines 380-508), non-Varlink path, together with the
mutual-exclusion check of parse_argv line 170: build the measurement word for
the selected mode, then run the gates and the extension via run_measure. -/
def run (c : Config) (env : RunEnv) : RunResult :=
  if c.file_system.isSome ∧ c.machine_id then ⟨Except.error EINVAL, c.banks, [], []⟩
  else
    match run_build_word c env with
    | Except.error e => ⟨Except.error e, c.banks, [], []⟩
    | Except.ok (word, event) => run_measure c env word event

/-- Parameters of the Varlink Extend method after JSON dispatch
(MethodExtendParameters, pcrextend.c lines 319-324): the mandatory PCR index,
the optional text payload and the optional base64-decoded binary payload. -/
structure MethodExtendParameters where
  pcr : Nat
  text : Option Bytes
  data : Option Bytes

/-- Reply of the Varlink Extend method: the empty success reply, an
invalid-parameter error naming the offending parameter, or a propagated
engine error. -/
inductive VarlinkReply
  | replyOk
  | invalidParameter (name : String)
  | methodError (e : Nat)
deriving DecidableEq, Repr

/-- Outcome of one Varlink Extend call: the reply, the bank list state after
the call, the bank queries made, and the tpm2_extend_bytes calls made. -/
structure VlResult where
  reply : VarlinkReply
  banks : List String
  queries : List Nat
  calls : List ExtendCall
deriving Repr

/-- vl_method_extend (pcrextend.c lines 342-378): reject a PCR index outside
0..23 naming parameter pcr, reject a request carrying both text and data
naming parameter data, reject a request carrying neither naming parameter
text, and otherwise run extend_now on the single supplied payload with the
invalid event type, replying with the empty success object when it
succeeds. -/
def vl_method_extend (env : Tpm2Env) (arg_banks : List String)
    (p : MethodExtendParameters) : VlResult :=
  if ¬ p.pcr < TPM2_PCRS_MAX then ⟨VarlinkReply.invalidParameter "pcr", arg_banks, [], []⟩
  else
    match p.text with
    | some t =>
      if p.data.isSome then ⟨VarlinkReply.invalidParameter "data", arg_banks, [], []⟩
      else
        let r := extend_now env arg_banks p.pcr t Tpm2UserspaceEventType.invalid
        ⟨match r.result with
         | Except.ok _ => VarlinkReply.replyOk
         | Except.error e => VarlinkReply.methodError e,
         r.banks, r.queries, r.calls⟩
    | none =>
      match p.data with
      | some d =>
        let r := extend_now env arg_banks p.pcr d Tpm2UserspaceEventType.invalid
        ⟨match r.result with
         | Except.ok _ => VarlinkReply.replyOk
         | Except.error e => VarlinkReply.methodError e,
         r.banks, r.queries, r.calls⟩
      | none => ⟨VarlinkReply.invalidParameter "text", arg_banks, [], []⟩

/-- Two successive Varlink Extend calls in one service process: the bank list
state left by the first call is the one the second call starts from, exactly
as the global arg_banks persists across method invocations. -/
def vl_two_calls (env : Tpm2Env) (banks0 : List String)
    (p1 p2 : MethodExtendParameters) : VlResult × VlResult :=
  (vl_method_extend env banks0 p1,
   vl_method_extend env (vl_method_extend env banks0 p1).banks p2)

/-- Sample TPM environment whose bank query reports SHA256 for PCR 11 and
SHA1 for every other register, with every operation succeeding. -/
def sampleTpm2Env : Tpm2Env :=
  ⟨true, EIO, fun p => if p = 11 then ["SHA256"] else ["SHA1"], true, EIO, true, EIO⟩

/-- Sample TPM environment whose bank query reports no usable bank for any
register. -/
def sampleTpm2EnvNoBanks : Tpm2Env :=
  ⟨true, EIO, fun _ => [], true, EIO, true, EIO⟩

/-- Sample file-system mode configuration for the path /mnt with the bank
list explicitly configured to SHA256. -/
def sampleConfigFS : Config :=
  ⟨false, ["SHA256"], some (strBytes "/mnt"), false, none, []⟩

/-- Sample plain-word mode configuration measuring the word leave. -/
def sampleConfigWord : Config :=
  ⟨false, ["SHA256"], none, false, none, [strBytes "leave"]⟩

/-- Sample run environment: full TPM support, the stub measurement flag as
given, the path /mnt resolving to a mount point whose backing device cannot
be determined. -/
def sampleRunEnv (stub : Bool) : RunEnv :=
  ⟨sampleTpm2Env, true, Except.ok stub, Except.ok (strBytes "/mnt"),
   Except.ok true, none, Except.ok (strBytes "0123456789abcdef0123456789abcdef")⟩

/-! Helper lemmas about the escaping scheme and the extension engine. -/

/-- hexchar never yields the separator byte 58. -/
theorem hexchar_ne_colon (n : Nat) : hexchar n ≠ 58 := by
  unfold hexchar
  split <;> omega

/-- Escaping one byte for the separator never emits the separator byte 58. -/
theorem colon_not_mem_xescape_char (b : Nat) : 58 ∉ xescape_char [58] b := by
  unfold xescape_char
  by_cases hc : b < 32 ∨ 127 ≤ b ∨ b = 92 ∨ b ∈ [58]
  · rw [if_pos hc]
    intro h
    simp only [List.mem_cons, List.not_mem_nil, or_false] at h
    rcases h with h | h | h | h
    · omega
    · omega
    · exact hexchar_ne_colon _ h.symm
    · exact hexchar_ne_colon _ h.symm
  · rw [if_neg hc]
    push_neg at hc
    intro h
    simp only [List.mem_singleton] at h
    exact hc.2.2.2 (by simp [← h])

/-- Fields escaped for the separator contain no separator byte, so the joined
word tokenizes unambiguously. -/
theorem colon_not_mem_xescape (s : Bytes) : 58 ∉ xescape s [58] := by
  intro h
  rw [xescape, List.mem_flatMap] at h
  obtain ⟨b, _, hmem⟩ := h
  exact colon_not_mem_xescape_char b hmem

/-- Every tpm2_extend_bytes call recorded by extend_now carries exactly the
raw payload handed to extend_now. -/
theorem extend_now_calls_data (env : Tpm2Env) (banks : List String) (pcr : Nat)
    (data : Bytes) (event : Tpm2UserspaceEventType) :
    ∀ k ∈ (extend_now env banks pcr data event).calls, k.data = data := by
  intro k hk
  unfold extend_now at hk
  split at hk
  · simp at hk
  · unfold determine_banks at hk
    by_cases hb : banks ≠ []
    · rw [if_pos hb] at hk
      simp only at hk
      split at hk
      · simp at hk
      · split at hk <;> · simp at hk; rw [hk]
    · rw [if_neg hb] at hk
      by_cases hq : env.banks_query_ok
      · rw [if_pos hq] at hk
        simp only at hk
        split at hk
        · simp at hk
        · split at hk <;> · simp at hk; rw [hk]
      · rw [if_neg hq] at hk
        simp at hk

/-- extend_now with an explicitly non-empty bank list and a working TPM:
the bank list is used unchanged, no bank query happens, and one
tpm2_extend_bytes call is made with the raw payload. -/
theorem extend_now_explicit (env : Tpm2Env) (banks : List String) (pcr : Nat)
    (data : Bytes) (event : Tpm2UserspaceEventType)
    (hctx : env.ctx_ok = true) (hb : banks ≠ []) (hext : env.extend_ok = true) :
    extend_now env banks pcr data event =
      ⟨Except.ok (), banks, [], [⟨banks, pcr, data, event, extension_safe_string data⟩],
       some (extension_safe_string data)⟩ := by
  rw [extend_now, if_neg (by simp [hctx]), determine_banks, if_pos hb]
  simp only [if_neg hb, if_pos hext]

/-- extend_now starting from an empty bank list with a working TPM whose
query reports a non-empty bank set: the target PCR is queried, the result
replaces the bank list, and one tpm2_extend_bytes call is made on it. -/
theorem extend_now_from_query (env : Tpm2Env) (pcr : Nat) (data : Bytes)
    (event : Tpm2UserspaceEventType)
    (hctx : env.ctx_ok = true) (hq : env.banks_query_ok = true)
    (hg : env.good_pcr_banks pcr ≠ []) (hext : env.extend_ok = true) :
    extend_now env [] pcr data event =
      ⟨Except.ok (), env.good_pcr_banks pcr, [pcr],
       [⟨env.good_pcr_banks pcr, pcr, data, event, extension_safe_string data⟩],
       some (extension_safe_string data)⟩ := by
  rw [extend_now, if_neg (by simp [hctx]), determine_banks, if_neg (by simp), if_pos hq]
  simp only [if_neg hg, if_pos hext]

/-- Varlink Extend with a valid PCR index and only the text payload reduces
to extend_now on the text bytes with the invalid event type. -/
theorem vl_method_extend_text (env : Tpm2Env) (banks : List String) (pcr : Nat)
    (t : Bytes) (hpcr : pcr < TPM2_PCRS_MAX) :
    vl_method_extend env banks ⟨pcr, some t, none⟩ =
      ⟨match (extend_now env banks pcr t Tpm2UserspaceEventType.invalid).result with
        | Except.ok _ => VarlinkReply.replyOk
        | Except.error e => VarlinkReply.methodError e,
       (extend_now env banks pcr t Tpm2UserspaceEventType.invalid).banks,
       (extend_now env banks pcr t Tpm2UserspaceEventType.invalid).queries,
       (extend_now env banks pcr t Tpm2UserspaceEventType.invalid).calls⟩ := by
  rw [vl_method_extend, if_neg (not_not_intro hpcr)]
  rfl

/-- When neither gate intervenes, the non-Varlink tail reduces to the
extend_now call on the built word. -/
theorem run_measure_extends (c : Config) (env : RunEnv) (word : Bytes)
    (event : Tpm2UserspaceEventType)
    (hg : ¬(c.graceful = true ∧ env.tpm2_support_full = false))
    (hefi : env.efi_measured_uki = Except.ok true) :
    run_measure c env word event =
      ⟨(extend_now env.tpm2 c.banks (effective_pcr_index c) word event).result,
       (extend_now env.tpm2 c.banks (effective_pcr_index c) word event).banks,
       (extend_now env.tpm2 c.banks (effective_pcr_index c) word event).queries,
       (extend_now env.tpm2 c.banks (effective_pcr_index c) word event).calls⟩ := by
  rw [run_measure, if_neg hg, hefi]

/-- When the stub did not measure the kernel image, the non-Varlink tail
exits successfully without touching the TPM, whatever the mode and PCR. -/
theorem run_measure_stub_skip (c : Config) (env : RunEnv) (word : Bytes)
    (event : Tpm2UserspaceEventType)
    (hg : ¬(c.graceful = true ∧ env.tpm2_support_full = false))
    (hefi : env.efi_measured_uki = Except.ok false) :
    run_measure c env word event = ⟨Except.ok (), c.banks, [], []⟩ := by
  rw [run_measure, if_neg hg, hefi]

/-! Claim theorems. -/

/-- C5: for every FileSystemIdentity tuple of 7 raw field values, escaping
each field for the separator byte 58, joining with the separator and
re-splitting the joined string on the separator yields exactly 7 fields that
are byte-identical to the escaped originals, even when fields are empty. -/
theorem fs_identity_roundtrip (f0 f1 f2 f3 f4 f5 f6 : Bytes) :
    (strv_join ([f0, f1, f2, f3, f4, f5, f6].map (fun f => xescape f [58])) [58]).splitOn 58
      = [f0, f1, f2, f3, f4, f5, f6].map (fun f => xescape f [58]) ∧
    ([f0, f1, f2, f3, f4, f5, f6].map (fun f => xescape f [58])).length = 7 := by
  constructor
  · apply List.splitOn_intercalate
    · intro l hl
      simp only [List.map_cons, List.map_nil, List.mem_cons, List.not_mem_nil, or_false] at hl
      rcases hl with h | h | h | h | h | h | h <;>
        · rw [h]; exact colon_not_mem_xescape _
    · simp
  · rfl

/-- C3: the Bank Selector returns an explicitly configured bank list
unchanged without querying the TPM; when none is configured it queries the
TPM for the banks holding a valid digest in the target PCR, and when that
query yields the empty set the extension call fails hard with ENOENT before
any tpm2_extend_bytes call is attempted. -/
theorem bank_selector_spec (env : Tpm2Env) (banks : List String) (pcr : Nat)
    (data : Bytes) (event : Tpm2UserspaceEventType) :
    (banks ≠ [] → determine_banks env banks pcr = (Except.ok banks, [])) ∧
    (banks = [] → env.banks_query_ok = true →
      determine_banks env banks pcr = (Except.ok (env.good_pcr_banks pcr), [pcr])) ∧
    (banks = [] → env.ctx_ok = true → env.banks_query_ok = true →
      env.good_pcr_banks pcr = [] →
      extend_now env banks pcr data event =
        ⟨Except.error ENOENT, [], [pcr], [], none⟩) := by
  refine ⟨fun hb => ?_, fun hb hq => ?_, fun hb hctx hq hempty => ?_⟩
  · rw [determine_banks, if_pos hb]
  · rw [determine_banks, if_neg (by simp [hb]), if_pos hq]
  · rw [extend_now]
    rw [if_neg (by simp [hctx])]
    rw [determine_banks, if_neg (by simp [hb]), if_pos hq, hempty]
    simp

/-- Witness for C3 at concrete inputs: an explicit SHA256 list is returned
unchanged with no query, and a TPM reporting no usable bank for PCR 7 makes
the call fail with ENOENT and no extend attempt. -/
theorem bank_selector_spec_witness :
    determine_banks sampleTpm2EnvNoBanks ["SHA256"] 7 = (Except.ok ["SHA256"], []) ∧
    extend_now sampleTpm2EnvNoBanks [] 7 [65] Tpm2UserspaceEventType.phase =
      ⟨Except.error ENOENT, [], [7], [], none⟩ :=
  ⟨(bank_selector_spec sampleTpm2EnvNoBanks ["SHA256"] 7 [65]
      Tpm2UserspaceEventType.phase).1 (by simp),
   (bank_selector_spec sampleTpm2EnvNoBanks [] 7 [65]
      Tpm2UserspaceEventType.phase).2.2 rfl rfl rfl rfl⟩

/-- C8: once the extension engine reaches the logging step, the logged
textual representation is the printable escaping of the payload, truncated to
the escaping of the first 1024 bytes followed by the marker "..." when the
payload is longer than 1024 bytes, while the tpm2_extend_bytes call carries
the full raw payload of unbounded size. -/
theorem extend_logging_truncation (env : Tpm2Env) (banks : List String) (pcr : Nat)
    (data : Bytes) (event : Tpm2UserspaceEventType)
    (hctx : env.ctx_ok = true) (hb : banks ≠ []) :
    (extend_now env banks pcr data event).logged =
      some (if EXTENSION_STRING_SAFE_LIMIT < data.length then
              cescape_length data EXTENSION_STRING_SAFE_LIMIT ++ strBytes "..."
            else cescape_length data data.length) ∧
    (extend_now env banks pcr data event).calls =
      [⟨banks, pcr, data, event,
        if EXTENSION_STRING_SAFE_LIMIT < data.length then
          cescape_length data EXTENSION_STRING_SAFE_LIMIT ++ strBytes "..."
        else cescape_length data data.length⟩] := by
  rw [extend_now, if_neg (by simp [hctx]), determine_banks, if_pos hb]
  simp only [if_neg hb]
  by_cases he : env.extend_ok
  · rw [if_pos he]
    exact ⟨rfl, rfl⟩
  · rw [if_neg he]
    exact ⟨rfl, rfl⟩

/-- Witness for C8: with a working TPM context and explicit SHA256 bank, the
payload of one byte 10 is logged as its printable escape and extended raw. -/
theorem extend_logging_truncation_witness :
    (extend_now sampleTpm2Env ["SHA256"] 11 [10] Tpm2UserspaceEventType.phase).logged =
      some (if EXTENSION_STRING_SAFE_LIMIT < ([10] : Bytes).length then
              cescape_length [10] EXTENSION_STRING_SAFE_LIMIT ++ strBytes "..."
            else cescape_length [10] ([10] : Bytes).length) ∧
    (extend_now sampleTpm2Env ["SHA256"] 11 [10] Tpm2UserspaceEventType.phase).calls =
      [⟨["SHA256"], 11, [10], Tpm2UserspaceEventType.phase,
        if EXTENSION_STRING_SAFE_LIMIT < ([10] : Bytes).length then
          cescape_length [10] EXTENSION_STRING_SAFE_LIMIT ++ strBytes "..."
        else cescape_length [10] ([10] : Bytes).length⟩] :=
  extend_logging_truncation sampleTpm2Env ["SHA256"] 11 [10]
    Tpm2UserspaceEventType.phase rfl (by simp)

/-- C4: the Varlink Extend method rejects a PCR index outside 0..23 naming
parameter pcr, rejects a request with both the text and the data payload
naming parameter data, rejects a request with neither naming parameter text,
and otherwise hands the single supplied payload to the extension engine and
replies with the empty acknowledgement when it succeeds. -/
theorem vl_extend_validation (env : Tpm2Env) (banks : List String)
    (p : MethodExtendParameters) :
    (¬ p.pcr < TPM2_PCRS_MAX →
      vl_method_extend env banks p =
        ⟨VarlinkReply.invalidParameter "pcr", banks, [], []⟩) ∧
    (∀ t d, p.pcr < TPM2_PCRS_MAX → p.text = some t → p.data = some d →
      vl_method_extend env banks p =
        ⟨VarlinkReply.invalidParameter "data", banks, [], []⟩) ∧
    (p.pcr < TPM2_PCRS_MAX → p.text = none → p.data = none →
      vl_method_extend env banks p =
        ⟨VarlinkReply.invalidParameter "text", banks, [], []⟩) ∧
    (∀ t, p.pcr < TPM2_PCRS_MAX → p.text = some t → p.data = none →
      (vl_method_extend env banks p).calls =
        (extend_now env banks p.pcr t Tpm2UserspaceEventType.invalid).calls ∧
      ((extend_now env banks p.pcr t Tpm2UserspaceEventType.invalid).result =
          Except.ok () →
        (vl_method_extend env banks p).reply = VarlinkReply.replyOk)) ∧
    (∀ d, p.pcr < TPM2_PCRS_MAX → p.text = none → p.data = some d →
      (vl_method_extend env banks p).calls =
        (extend_now env banks p.pcr d Tpm2UserspaceEventType.invalid).calls ∧
      ((extend_now env banks p.pcr d Tpm2UserspaceEventType.invalid).result =
          Except.ok () →
        (vl_method_extend env banks p).reply = VarlinkReply.replyOk)) := by
  refine ⟨fun hp => ?_, fun t d hp ht hd => ?_, fun hp ht hd => ?_,
    fun t hp ht hd => ?_, fun d hp ht hd => ?_⟩
  · rw [vl_method_extend, if_pos hp]
  · rw [vl_method_extend, if_neg (not_not_intro hp), ht, hd]; rfl
  · rw [vl_method_extend, if_neg (not_not_intro hp), ht, hd]
  · rw [vl_method_extend, if_neg (not_not_intro hp), ht, hd]
    constructor
    · rfl
    · intro hres
      show (match (extend_now env banks p.pcr t Tpm2UserspaceEventType.invalid).result with
        | Except.ok _ => VarlinkReply.replyOk
        | Except.error e => VarlinkReply.methodError e) = VarlinkReply.replyOk
      rw [hres]
  · rw [vl_method_extend, if_neg (not_not_intro hp), ht, hd]
    constructor
    · rfl
    · intro hres
      show (match (extend_now env banks p.pcr d Tpm2UserspaceEventType.invalid).result with
        | Except.ok _ => VarlinkReply.replyOk
        | Except.error e => VarlinkReply.methodError e) = VarlinkReply.replyOk
      rw [hres]

/-- Witness for C4 at concrete requests: index 24 is rejected naming pcr,
both payloads are rejected naming data, neither is rejected naming text, and
a valid text-only request yields the empty success reply. -/
theorem vl_extend_validation_witness :
    vl_method_extend sampleTpm2Env ["SHA256"] ⟨24, some [65], none⟩ =
      ⟨VarlinkReply.invalidParameter "pcr", ["SHA256"], [], []⟩ ∧
    vl_method_extend sampleTpm2Env ["SHA256"] ⟨3, some [65], some [66]⟩ =
      ⟨VarlinkReply.invalidParameter "data", ["SHA256"], [], []⟩ ∧
    vl_method_extend sampleTpm2Env ["SHA256"] ⟨3, none, none⟩ =
      ⟨VarlinkReply.invalidParameter "text", ["SHA256"], [], []⟩ ∧
    (vl_method_extend sampleTpm2Env ["SHA256"] ⟨3, some [65], none⟩).reply =
      VarlinkReply.replyOk :=
  ⟨(vl_extend_validation sampleTpm2Env ["SHA256"] ⟨24, some [65], none⟩).1 (by decide),
   (vl_extend_validation sampleTpm2Env ["SHA256"] ⟨3, some [65], some [66]⟩).2.1
     [65] [66] (by decide) rfl rfl,
   (vl_extend_validation sampleTpm2Env ["SHA256"] ⟨3, none, none⟩).2.2.1
     (by decide) rfl rfl,
   ((vl_extend_validation sampleTpm2Env ["SHA256"] ⟨3, some [65], none⟩).2.2.2.1
     [65] (by decide) rfl rfl).2 rfl⟩

/-- C10: a Varlink Extend request whose text parameter is the empty string
and with no data parameter is accepted and extends a zero-length payload,
while the empty-input rejection applies only to the plain-word CLI mode. -/
theorem vl_empty_text_accepted (env : Tpm2Env) (banks : List String) (pcr : Nat)
    (hpcr : pcr < TPM2_PCRS_MAX) (hb : banks ≠ []) (hctx : env.ctx_ok = true)
    (hext : env.extend_ok = true) :
    vl_method_extend env banks ⟨pcr, some [], none⟩ =
      ⟨VarlinkReply.replyOk, banks, [],
       [⟨banks, pcr, [], Tpm2UserspaceEventType.invalid, []⟩]⟩ ∧
    (∀ c2 : Config, ∀ env2 : RunEnv, c2.file_system = none → c2.machine_id = false →
      c2.args = [[]] → run c2 env2 = ⟨Except.error EINVAL, c2.banks, [], []⟩) := by
  constructor
  · rw [vl_method_extend_text env banks pcr [] hpcr,
      extend_now_explicit env banks pcr [] Tpm2UserspaceEventType.invalid hctx hb hext]
    rfl
  · intro c2 env2 h1 h2 h3
    rw [run, if_neg (by simp [h1]), run_build_word, if_neg (by simp [h1]),
      if_neg (by simp [h2]), h3]
    rfl

/-- Witness for C10: the empty text payload on PCR 3 with the explicit
SHA256 bank yields the empty success reply and one zero-length extension,
and the empty plain word makes the CLI run fail with EINVAL. -/
theorem vl_empty_text_accepted_witness :
    vl_method_extend sampleTpm2Env ["SHA256"] ⟨3, some [], none⟩ =
      ⟨VarlinkReply.replyOk, ["SHA256"], [],
       [⟨["SHA256"], 3, [], Tpm2UserspaceEventType.invalid, []⟩]⟩ ∧
    run ⟨false, ["SHA256"], none, false, none, [[]]⟩ (sampleRunEnv true) =
      ⟨Except.error EINVAL, ["SHA256"], [], []⟩ :=
  ⟨(vl_empty_text_accepted sampleTpm2Env ["SHA256"] 3 (by decide) (by simp) rfl rfl).1,
   (vl_empty_text_accepted sampleTpm2Env ["SHA256"] 3 (by decide) (by simp) rfl rfl).2
     ⟨false, ["SHA256"], none, false, none, [[]]⟩ (sampleRunEnv true) rfl rfl rfl⟩

/-- C9: a non-Service invocation with the graceful flag set and without a
fully functional TPM exits with code 0 (success) and never invokes the TPM
extend operation, provided the invocation itself built its measurement word
successfully. -/
theorem graceful_gate_skips (c : Config) (env : RunEnv) (w : Bytes)
    (ev : Tpm2UserspaceEventType)
    (hex : ¬(c.file_system.isSome = true ∧ c.machine_id = true))
    (hbuild : run_build_word c env = Except.ok (w, ev))
    (hg : c.graceful = true) (ht : env.tpm2_support_full = false) :
    run c env = ⟨Except.ok (), c.banks, [], []⟩ := by
  rw [run, if_neg hex, hbuild]
  show run_measure c env w ev = _
  rw [run_measure]
  exact if_pos ⟨hg, ht⟩

/-- Witness for C9: a graceful plain-word invocation on a machine without
full TPM support exits successfully with no extension call. -/
theorem graceful_gate_skips_witness :
    run ⟨true, ["SHA256"], none, false, none, [strBytes "leave"]⟩
        ⟨sampleTpm2Env, false, Except.ok true, Except.ok (strBytes "/mnt"),
         Except.ok true, none, Except.ok (strBytes "abcd")⟩ =
      ⟨Except.ok (), ["SHA256"], [], []⟩ :=
  graceful_gate_skips _ _ (strBytes "leave") Tpm2UserspaceEventType.phase
    (by simp) rfl rfl rfl

/-- C7: in plain-word mode the empty word is refused with EINVAL before any
TPM interaction, and a non-empty word is handed to the extension engine
verbatim, so every tpm2_extend_bytes call carries exactly the input bytes. -/
theorem plain_word_mode_spec (c : Config) (env : RunEnv) (w : Bytes)
    (hfs : c.file_system = none) (hmid : c.machine_id = false)
    (hargs : c.args = [w]) :
    (w = [] → run c env = ⟨Except.error EINVAL, c.banks, [], []⟩) ∧
    (w ≠ [] → ¬(c.graceful = true ∧ env.tpm2_support_full = false) →
      env.efi_measured_uki = Except.ok true →
      run c env =
        ⟨(extend_now env.tpm2 c.banks (effective_pcr_index c) w
            Tpm2UserspaceEventType.phase).result,
         (extend_now env.tpm2 c.banks (effective_pcr_index c) w
            Tpm2UserspaceEventType.phase).banks,
         (extend_now env.tpm2 c.banks (effective_pcr_index c) w
            Tpm2UserspaceEventType.phase).queries,
         (extend_now env.tpm2 c.banks (effective_pcr_index c) w
            Tpm2UserspaceEventType.phase).calls⟩) ∧
    (∀ k ∈ (run c env).calls, k.data = w) := by
  have hguard : ¬(c.file_system.isSome = true ∧ c.machine_id = true) := by simp [hfs]
  have hbw : run_build_word c env =
      if w = [] then Except.error EINVAL
      else Except.ok (w, Tpm2UserspaceEventType.phase) := by
    rw [run_build_word, if_neg (by simp [hfs]), if_neg (by simp [hmid]), hargs]
  refine ⟨fun hw => ?_, fun hw hg hefi => ?_, ?_⟩
  · rw [run, if_neg hguard, hbw, if_pos hw]
  · rw [run, if_neg hguard, hbw, if_neg hw]
    show run_measure c env w Tpm2UserspaceEventType.phase = _
    exact run_measure_extends c env w Tpm2UserspaceEventType.phase hg hefi
  · intro k hk
    rw [run, if_neg hguard, hbw] at hk
    by_cases hw : w = []
    · rw [if_pos hw] at hk
      simp at hk
    · rw [if_neg hw] at hk
      have hk2 : k ∈ (run_measure c env w Tpm2UserspaceEventType.phase).calls := hk
      rw [run_measure] at hk2
      by_cases hg : c.graceful = true ∧ env.tpm2_support_full = false
      · rw [if_pos hg] at hk2
        simp at hk2
      · rw [if_neg hg] at hk2
        cases hE : env.efi_measured_uki with
        | error e =>
          rw [hE] at hk2
          simp at hk2
        | ok b =>
          cases b with
          | false =>
            rw [hE] at hk2
            simp at hk2
          | true =>
            rw [hE] at hk2
            exact extend_now_calls_data _ _ _ _ _ k hk2

/-- Witness for C7: the plain word leave is measured verbatim into PCR 11
with the explicitly configured SHA256 bank. -/
theorem plain_word_mode_spec_witness :
    run sampleConfigWord (sampleRunEnv true) =
      ⟨(extend_now sampleTpm2Env ["SHA256"] 11 (strBytes "leave")
          Tpm2UserspaceEventType.phase).result,
       (extend_now sampleTpm2Env ["SHA256"] 11 (strBytes "leave")
          Tpm2UserspaceEventType.phase).banks,
       (extend_now sampleTpm2Env ["SHA256"] 11 (strBytes "leave")
          Tpm2UserspaceEventType.phase).queries,
       (extend_now sampleTpm2Env ["SHA256"] 11 (strBytes "leave")
          Tpm2UserspaceEventType.phase).calls⟩ :=
  (plain_word_mode_spec sampleConfigWord (sampleRunEnv true) (strBytes "leave")
    rfl rfl rfl).2.1 (by decide) (by decide) rfl

/-- C6: in file-system mode, when the backing block device of the mount point
cannot be resolved, the run does not fail: the generic fallback word made of
the prefix, the escaped normalized path and six empty trailing fields is
built and that word is what gets measured. -/
theorem fs_fallback_word (c : Config) (env : RunEnv) (p n : Bytes)
    (hfs : c.file_system = some p) (hmid : c.machine_id = false)
    (hargs : c.args = []) (hchase : env.chase = Except.ok n)
    (hmp : env.mount_point = Except.ok true) (hback : env.backing_device = none)
    (hg : ¬(c.graceful = true ∧ env.tpm2_support_full = false))
    (hefi : env.efi_measured_uki = Except.ok true)
    (hb : c.banks ≠ []) (hctx : env.tpm2.ctx_ok = true)
    (hext : env.tpm2.extend_ok = true) :
    run_build_word c env =
      Except.ok (strBytes "file-system:" ++ xescape n [58] ++ strBytes "::::::",
        Tpm2UserspaceEventType.filesystem) ∧
    (run c env).result = Except.ok () ∧
    (run c env).calls.map (fun k => k.data) =
      [strBytes "file-system:" ++ xescape n [58] ++ strBytes "::::::"] := by
  have hbw : run_build_word c env =
      Except.ok (strBytes "file-system:" ++ xescape n [58] ++ strBytes "::::::",
        Tpm2UserspaceEventType.filesystem) := by
    rw [run_build_word, if_pos (by simp [hfs]), if_neg (by simp [hargs]),
      hchase, hmp, hback, List.append_assoc]
    rfl
  have hrun : run c env =
      ⟨(extend_now env.tpm2 c.banks (effective_pcr_index c)
          (strBytes "file-system:" ++ xescape n [58] ++ strBytes "::::::")
          Tpm2UserspaceEventType.filesystem).result,
       (extend_now env.tpm2 c.banks (effective_pcr_index c)
          (strBytes "file-system:" ++ xescape n [58] ++ strBytes "::::::")
          Tpm2UserspaceEventType.filesystem).banks,
       (extend_now env.tpm2 c.banks (effective_pcr_index c)
          (strBytes "file-system:" ++ xescape n [58] ++ strBytes "::::::")
          Tpm2UserspaceEventType.filesystem).queries,
       (extend_now env.tpm2 c.banks (effective_pcr_index c)
          (strBytes "file-system:" ++ xescape n [58] ++ strBytes "::::::")
          Tpm2UserspaceEventType.filesystem).calls⟩ := by
    rw [run, if_neg (by simp [hmid]), hbw]
    exact run_measure_extends c env _ _ hg hefi
  have he := extend_now_explicit env.tpm2 c.banks (effective_pcr_index c)
    (strBytes "file-system:" ++ xescape n [58] ++ strBytes "::::::")
    Tpm2UserspaceEventType.filesystem hctx hb hext
  refine ⟨hbw, ?_, ?_⟩
  · rw [hrun, he]
  · rw [hrun, he]
    rfl

/-- Witness for C6: the mount point /mnt without a resolvable backing device
is measured as the fallback word with six empty trailing fields. -/
theorem fs_fallback_word_witness :
    run_build_word sampleConfigFS (sampleRunEnv true) =
      Except.ok (strBytes "file-system:" ++ xescape (strBytes "/mnt") [58] ++
          strBytes "::::::",
        Tpm2UserspaceEventType.filesystem) ∧
    (run sampleConfigFS (sampleRunEnv true)).result = Except.ok () ∧
    (run sampleConfigFS (sampleRunEnv true)).calls.map (fun k => k.data) =
      [strBytes "file-system:" ++ xescape (strBytes "/mnt") [58] ++
        strBytes "::::::"] :=
  fs_fallback_word sampleConfigFS (sampleRunEnv true) (strBytes "/mnt")
    (strBytes "/mnt") rfl rfl rfl rfl rfl rfl (by decide) rfl
    (by decide) rfl rfl

/-- C1 counterexample: the stub-measurement gate is not limited to the
kernel-boot-phase default. In file-system mode, whose effective PCR index is
15, the very same invocation measures when the stub reports the kernel image
as measured and is skipped as success with no measurement when it does not,
so the gate does apply outside PCR 11 plain-word mode. -/
theorem stub_gate_counterexample :
    sampleConfigFS.file_system.isSome = true ∧
    effective_pcr_index sampleConfigFS = TPM2_PCR_SYSTEM_IDENTITY ∧
    run sampleConfigFS (sampleRunEnv false) =
      ⟨Except.ok (), ["SHA256"], [], []⟩ ∧
    (run sampleConfigFS (sampleRunEnv true)).calls ≠ [] :=
  ⟨rfl, rfl, rfl, by decide⟩

/-- C1 amended: the stub-measurement gate applies to every non-Service
invocation, whatever the mode and target PCR index: after the graceful gate,
if the boot stub did not measure the kernel image, the whole operation is
skipped and reported as success with no TPM extension. -/
theorem stub_gate_applies_in_all_modes (c : Config) (env : RunEnv) (w : Bytes)
    (ev : Tpm2UserspaceEventType)
    (hex : ¬(c.file_system.isSome = true ∧ c.machine_id = true))
    (hbuild : run_build_word c env = Except.ok (w, ev))
    (hg : ¬(c.graceful = true ∧ env.tpm2_support_full = false))
    (hefi : env.efi_measured_uki = Except.ok false) :
    run c env = ⟨Except.ok (), c.banks, [], []⟩ := by
  rw [run, if_neg hex, hbuild]
  exact run_measure_stub_skip c env w ev hg hefi

/-- Witness for the amended C1: a file-system mode run targeting PCR 15 is
skipped as success when the stub did not measure the kernel image. -/
theorem stub_gate_applies_in_all_modes_witness :
    run sampleConfigFS (sampleRunEnv false) =
      ⟨Except.ok (), ["SHA256"], [], []⟩ :=
  stub_gate_applies_in_all_modes sampleConfigFS (sampleRunEnv false)
    (strBytes "file-system:/mnt::::::") Tpm2UserspaceEventType.filesystem
    (by decide) rfl (by decide) rfl

/-- C2 counterexample: with no explicit bank configuration, the second of two
successive Varlink Extend calls does not query the TPM at all and extends the
banks stored by the first call (SHA256, queried for PCR 11), although a fresh
query for its own PCR 15 would return SHA1 — the bank set is persisted, not
recomputed per call. -/
theorem banks_recomputed_counterexample :
    (vl_two_calls sampleTpm2Env [] ⟨11, some [65], none⟩
        ⟨15, some [66], none⟩).2.queries = [] ∧
    ((vl_two_calls sampleTpm2Env [] ⟨11, some [65], none⟩
        ⟨15, some [66], none⟩).2.calls.map (fun k => k.banks)) = [["SHA256"]] ∧
    sampleTpm2Env.good_pcr_banks 15 = ["SHA1"] ∧
    (["SHA256"] : List String) ≠ ["SHA1"] :=
  ⟨rfl, rfl, rfl, by decide⟩

/-- C2 amended: when no explicit bank list is configured, only a call that
starts with an empty process-wide bank list queries the TPM; the query result
is stored in the process-wide bank list and every later call in the same
process reuses it without querying, even for a different PCR index. -/
theorem banks_persist_across_calls (env : Tpm2Env) (b1 b2 : Bytes) (q1 q2 : Nat)
    (hctx : env.ctx_ok = true) (hq : env.banks_query_ok = true)
    (hg : env.good_pcr_banks q1 ≠ []) (hext : env.extend_ok = true)
    (hp1 : q1 < TPM2_PCRS_MAX) (hp2 : q2 < TPM2_PCRS_MAX) :
    (vl_two_calls env [] ⟨q1, some b1, none⟩ ⟨q2, some b2, none⟩).1.queries =
      [q1] ∧
    (vl_two_calls env [] ⟨q1, some b1, none⟩ ⟨q2, some b2, none⟩).1.banks =
      env.good_pcr_banks q1 ∧
    (vl_two_calls env [] ⟨q1, some b1, none⟩ ⟨q2, some b2, none⟩).2.queries =
      [] ∧
    (vl_two_calls env [] ⟨q1, some b1, none⟩ ⟨q2, some b2, none⟩).2.calls.map
      (fun k => k.banks) = [env.good_pcr_banks q1] := by
  have h1 : vl_method_extend env [] ⟨q1, some b1, none⟩ =
      ⟨VarlinkReply.replyOk, env.good_pcr_banks q1, [q1],
       [⟨env.good_pcr_banks q1, q1, b1, Tpm2UserspaceEventType.invalid,
         extension_safe_string b1⟩]⟩ := by
    rw [vl_method_extend_text env [] q1 b1 hp1,
      extend_now_from_query env q1 b1 Tpm2UserspaceEventType.invalid hctx hq hg hext]
  have h2 : vl_method_extend env (env.good_pcr_banks q1) ⟨q2, some b2, none⟩ =
      ⟨VarlinkReply.replyOk, env.good_pcr_banks q1, [],
       [⟨env.good_pcr_banks q1, q2, b2, Tpm2UserspaceEventType.invalid,
         extension_safe_string b2⟩]⟩ := by
    rw [vl_method_extend_text env _ q2 b2 hp2,
      extend_now_explicit env _ q2 b2 Tpm2UserspaceEventType.invalid hctx hg hext]
  simp [vl_two_calls, h1, h2]

/-- Witness for the amended C2: the first call queries PCR 11 and stores
SHA256; the second call on PCR 15 queries nothing and extends SHA256. -/
theorem banks_persist_across_calls_witness :
    (vl_two_calls sampleTpm2Env [] ⟨11, some [65], none⟩
        ⟨15, some [66], none⟩).1.queries = [11] ∧
    (vl_two_calls sampleTpm2Env [] ⟨11, some [65], none⟩
        ⟨15, some [66], none⟩).1.banks = sampleTpm2Env.good_pcr_banks 11 ∧
    (vl_two_calls sampleTpm2Env [] ⟨11, some [65], none⟩
        ⟨15, some [66], none⟩).2.queries = [] ∧
    (vl_two_calls sampleTpm2Env [] ⟨11, some [65], none⟩
        ⟨15, some [66], none⟩).2.calls.map (fun k => k.banks) =
      [sampleTpm2Env.good_pcr_banks 11] :=
  banks_persist_across_calls sampleTpm2Env [65] [66] 11 15 rfl rfl
    (by decide) rfl (by decide) (by decide)

end Pcrextend
